import Mathlib

/-!
opBNB op-node: configuration validation and chain registry.

A shallow embedding of

* `op-node/p2p/config.go`: the `Config` record, `Config.Check` and
  `DefaultConnManager`;
* `op-node/chaincfg/chains.go`: the opBNB rollup configurations, the two
  lookup tables and `GetRollupConfigByNetwork` / `GetRollupConfigByChainId`.

Conventions.

* A Go `error` is an `Option String`: `none` is `nil`, `some msg` is an error
  whose `Error()` text is `msg`.
* A nilable pointer or interface value is an `Option` of a handle. The code
  only ever compares these against `nil`.
* `uint` is a `Nat` (below `2 ^ wordBits`), `int` is an `Int`,
  `time.Duration` is an `Int` (nanoseconds), `float64` is `Float`.
* `fmt`'s `%d` is decimal rendering: `toString` on `Nat` and `Int`.
-/

namespace P2P

/-- An opaque referent of a Go pointer or interface value. -/
abbrev Handle := Nat

/-- The `time.Duration` type: a signed count of nanoseconds. -/
abbrev Duration := Int

/-- The constant `time.Minute`. -/
def Minute : Duration := 60 * 1000000000

/-- The `Config` struct of `op-node/p2p/config.go`. -/
structure Config where
  Priv : Option Handle
  DisableP2P : Bool
  NoDiscovery : Bool
  ScoringParams : Option Handle
  BanningEnabled : Bool
  BanningThreshold : Float
  BanningDuration : Duration
  ListenIP : List Nat
  ListenTCPPort : Nat
  ListenUDPPort : Nat
  AdvertiseIP : List Nat
  AdvertiseTCPPort : Nat
  AdvertiseUDPPort : Nat
  Bootnodes : List Handle
  DiscoveryDB : Option Handle
  NetRestrict : Option Handle
  StaticPeers : List Handle
  HostMux : List Handle
  HostSecurity : List Handle
  NoTransportSecurity : Bool
  PeersLo : Nat
  PeersHi : Nat
  PeersGrace : Duration
  MeshD : Int
  MeshDLo : Int
  MeshDHi : Int
  MeshDLazy : Int
  FloodPublish : Bool
  NAT : Bool
  UserAgent : String
  TimeoutNegotiation : Duration
  TimeoutAccept : Duration
  TimeoutDial : Duration
  Store : Option Handle
  EnableReqRespSync : Bool

/-- The constant `maxMeshParam`. -/
def maxMeshParam : Int := 1000

/-- The text of `errors.New("p2p requires a persistent or in-memory peerstore, but found none")`. -/
def errNoStore : String :=
  "p2p requires a persistent or in-memory peerstore, but found none"

/-- The text of `errors.New("discovery requires a persistent or in-memory discv5 db, but found none")`. -/
def errNoDiscoveryDB : String :=
  "discovery requires a persistent or in-memory discv5 db, but found none"

/-- The text of `fmt.Errorf("peers lo/hi tides are invalid: %d, %d", lo, hi)`. -/
def errPeers (lo hi : Nat) : String :=
  "peers lo/hi tides are invalid: " ++ toString lo ++ ", " ++ toString hi

/-- The text of `fmt.Errorf("mesh <name> param must not be 0 or exceed %d, but got %d", ceiling, v)`;
the four call sites differ only in the parameter name written in the format string. -/
def errMesh (name : String) (ceiling v : Int) : String :=
  "mesh " ++ name ++ " param must not be 0 or exceed " ++ toString ceiling ++
    ", but got " ++ toString v

/-- The method `(conf *Config) Check() error`. -/
def Config.Check (conf : Config) : Option String :=
  if conf.DisableP2P then none
  else if conf.Store = none then some errNoStore
  else if conf.NoDiscovery = false ∧ conf.DiscoveryDB = none then some errNoDiscoveryDB
  else if conf.PeersLo = 0 ∨ conf.PeersHi = 0 ∨ conf.PeersLo > conf.PeersHi then
    some (errPeers conf.PeersLo conf.PeersHi)
  else if conf.MeshD ≤ 0 ∨ conf.MeshD > maxMeshParam then
    some (errMesh "D" maxMeshParam conf.MeshD)
  else if conf.MeshDLo ≤ 0 ∨ conf.MeshDLo > maxMeshParam then
    some (errMesh "Dlo" maxMeshParam conf.MeshDLo)
  else if conf.MeshDHi ≤ 0 ∨ conf.MeshDHi > maxMeshParam then
    some (errMesh "Dhi" maxMeshParam conf.MeshDHi)
  else if conf.MeshDLazy ≤ 0 ∨ conf.MeshDLazy > maxMeshParam then
    some (errMesh "Dlazy" maxMeshParam conf.MeshDLazy)
  else none

/-- The width of Go's `int` and `uint` on the 64-bit targets the node is built for. -/
def wordBits : Nat := 64

/-- The Go conversion `int(x)` of a `uint` value: the same bit pattern read as
two's complement at width `w`. -/
def intOfUint (w : Nat) (x : Nat) : Int :=
  if x % 2 ^ w < 2 ^ (w - 1) then ((x % 2 ^ w : Nat) : Int)
  else ((x % 2 ^ w : Nat) : Int) - ((2 ^ w : Nat) : Int)

/-- The arguments `DefaultConnManager` hands to `cmgr.NewConnManager`: the two
watermarks and the three options. -/
structure ConnManagerArgs where
  low : Int
  high : Int
  gracePeriod : Duration
  silencePeriod : Duration
  emergencyTrim : Bool
deriving DecidableEq, Repr

/-- The function `DefaultConnManager`, up to the call into the connection-manager
library: it computes the arguments of `cmgr.NewConnManager`. -/
def DefaultConnManager (conf : Config) : ConnManagerArgs :=
  { low := intOfUint wordBits conf.PeersLo
    high := intOfUint wordBits conf.PeersHi
    gracePeriod := conf.PeersGrace
    silencePeriod := Minute
    emergencyTrim := true }

/-- The method `TargetPeers`. -/
def Config.TargetPeers (conf : Config) : Nat := conf.PeersLo

/-- The method `Disabled`. -/
def Config.Disabled (conf : Config) : Bool := conf.DisableP2P

/-- A configuration that passes `Check` with P2P enabled; used as a concrete input. -/
def sampleConfig : Config :=
  { Priv := none, DisableP2P := false, NoDiscovery := false, ScoringParams := none,
    BanningEnabled := true, BanningThreshold := 0, BanningDuration := 3600 * 1000000000,
    ListenIP := [0, 0, 0, 0], ListenTCPPort := 9222, ListenUDPPort := 9222,
    AdvertiseIP := [], AdvertiseTCPPort := 0, AdvertiseUDPPort := 0,
    Bootnodes := [], DiscoveryDB := some 1, NetRestrict := none, StaticPeers := [],
    HostMux := [], HostSecurity := [], NoTransportSecurity := false,
    PeersLo := 20, PeersHi := 30, PeersGrace := 30 * 1000000000,
    MeshD := 8, MeshDLo := 6, MeshDHi := 12, MeshDLazy := 6,
    FloodPublish := false, NAT := false, UserAgent := "optimism",
    TimeoutNegotiation := 10 * 1000000000, TimeoutAccept := 10 * 1000000000,
    TimeoutDial := 10 * 1000000000, Store := some 2, EnableReqRespSync := true }

end P2P

namespace ChainCfg

/-- The `eth.BlockID` struct: a block hash (as the number its 32 bytes spell) and a block number. -/
structure BlockID where
  Hash : Nat
  Number : Nat
deriving DecidableEq, Repr

/-- The `eth.SystemConfig` struct, with the fields the opBNB literals set. -/
structure SystemConfig where
  BatcherAddr : Nat
  Overhead : Nat
  Scalar : Nat
  GasLimit : Nat
deriving DecidableEq, Repr

/-- The `rollup.Genesis` struct. -/
structure Genesis where
  L1 : BlockID
  L2 : BlockID
  L2Time : Nat
  SystemConfig : SystemConfig
deriving DecidableEq, Repr

/-- The `rollup.Config` struct. Its declaration lives in `op-node/rollup`, outside the
files embedded here; the record carries exactly the fields that the three opBNB literals of
`chains.go` set. Every other field of the Go struct is left at its zero value by all three
literals and by `rollup.Config{}` alike, so it cannot tell two values of this development
apart. Pointer fields (`*big.Int`, `*uint64`) are `Option`s, `nil` being `none`. -/
structure RollupConfig where
  Genesis : Genesis
  BlockTime : Nat
  MaxSequencerDrift : Nat
  SeqWindowSize : Nat
  ChannelTimeout : Nat
  L1ChainID : Option Int
  L2ChainID : Option Int
  BatchInboxAddress : Nat
  DepositContractAddress : Nat
  L1SystemConfigAddress : Nat
  RegolithTime : Option Nat
  Fermat : Option Int
  SnowTime : Option Nat
deriving DecidableEq, Repr

/-- The zero value `rollup.Config{}`. -/
def RollupConfig.zero : RollupConfig :=
  { Genesis :=
      { L1 := { Hash := 0, Number := 0 }
        L2 := { Hash := 0, Number := 0 }
        L2Time := 0
        SystemConfig := { BatcherAddr := 0, Overhead := 0, Scalar := 0, GasLimit := 0 } }
    BlockTime := 0
    MaxSequencerDrift := 0
    SeqWindowSize := 0
    ChannelTimeout := 0
    L1ChainID := none
    L2ChainID := none
    BatchInboxAddress := 0
    DepositContractAddress := 0
    L1SystemConfigAddress := 0
    RegolithTime := none
    Fermat := none
    SnowTime := none }

/-- The helper `u64Ptr`. -/
def u64Ptr (v : Nat) : Option Nat := some v

/-- The variable `OPBNBMainnet`. -/
def OPBNBMainnet : RollupConfig :=
  { Genesis :=
      { L1 := { Hash := 0x29443b21507894febe7700f7c5cd3569cc8bf1ba535df0489276d8004af81044
                Number := 30758357 }
        L2 := { Hash := 0x4dd61178c8b0f01670c231597e7bcb368e84545acd46d940a896d6a791dd6df4
                Number := 0 }
        L2Time := 1691753723
        SystemConfig :=
          { BatcherAddr := 0xef8783382ef80ec23b66c43575a6103deca909c3
            Overhead := 0x0000000000000000000000000000000000000000000000000000000000000834
            Scalar := 0x00000000000000000000000000000000000000000000000000000000000f4240
            GasLimit := 100000000 } }
    BlockTime := 1
    MaxSequencerDrift := 600
    SeqWindowSize := 14400
    ChannelTimeout := 1200
    L1ChainID := some 56
    L2ChainID := some 204
    BatchInboxAddress := 0xff00000000000000000000000000000000000204
    DepositContractAddress := 0x1876ea7702c0ad0c6a2ae6036de7733edfbca519
    L1SystemConfigAddress := 0x7ac836148c14c74086d57f7828f2d065672db3b8
    RegolithTime := u64Ptr 0
    Fermat := some 9397477
    SnowTime := u64Ptr 1713160800 }

/-- The variable `OPBNBTestnet`. -/
def OPBNBTestnet : RollupConfig :=
  { Genesis :=
      { L1 := { Hash := 0xc01a09840419cd993cf4666309f36e6d38de39771af8dbffecfa0386321c19f7
                Number := 30727847 }
        L2 := { Hash := 0x51fa57729dfb1c27542c21b06cb72a0459c57440ceb43a465dae1307cd04fe80
                Number := 0 }
        L2Time := 1686878506
        SystemConfig :=
          { BatcherAddr := 0x1fd6a75cc72f39147756a663f3ef1fc95ef89495
            Overhead := 0x0000000000000000000000000000000000000000000000000000000000000834
            Scalar := 0x00000000000000000000000000000000000000000000000000000000000f4240
            GasLimit := 100000000 } }
    BlockTime := 1
    MaxSequencerDrift := 600
    SeqWindowSize := 14400
    ChannelTimeout := 1200
    L1ChainID := some 97
    L2ChainID := some 5611
    BatchInboxAddress := 0xff00000000000000000000000000000000005611
    DepositContractAddress := 0x4386c8abf2009ac0c263462da568dd9d46e52a31
    L1SystemConfigAddress := 0x406ac857817708eaf4ca3a82317ef4ae3d1ea23b
    RegolithTime := u64Ptr 0
    Fermat := some 12113000
    SnowTime := none }

/-- The variable `OPBNBQANet`. -/
def OPBNBQANet : RollupConfig :=
  { Genesis :=
      { L1 := { Hash := 0x3db93722c9951fe1da25dd652c6e2367674a97161df2acea322e915cab0d58ba
                Number := 742038 }
        L2 := { Hash := 0x1cba296441b55cf9b5b306b6aef43e68e9aeff2450d68c391dec448604cf3baf
                Number := 0 }
        L2Time := 1704856150
        SystemConfig :=
          { BatcherAddr := 0xe309831c77d5fb5f189dd97c598e26e5c014f2d6
            Overhead := 0x0000000000000000000000000000000000000000000000000000000000000834
            Scalar := 0x00000000000000000000000000000000000000000000000000000000000f4240
            GasLimit := 100000000 } }
    BlockTime := 1
    MaxSequencerDrift := 600
    SeqWindowSize := 14400
    ChannelTimeout := 1200
    L1ChainID := some 714
    L2ChainID := some 1322
    BatchInboxAddress := 0xff00000000000000000000000000000000001322
    DepositContractAddress := 0xb7cdbce0b1f153b4cb2acc36aeb4d9d2cdda1132
    L1SystemConfigAddress := 0x6a2607255801095b23256a341b24d31275fe2438
    RegolithTime := u64Ptr 0
    Fermat := none
    SnowTime := none }

/-- The map `NetworksByName`, as the list of its entries (the keys are distinct). -/
def NetworksByName : List (String × RollupConfig) :=
  [("opBNBMainnet", OPBNBMainnet), ("opBNBTestnet", OPBNBTestnet), ("opBNBQANet", OPBNBQANet)]

/-- The map `NetworksByChainId`, as the list of its entries (the keys are distinct). -/
def NetworksByChainId : List (String × RollupConfig) :=
  [("204", OPBNBMainnet), ("5611", OPBNBTestnet), ("1322", OPBNBQANet)]

/-- The function `GetRollupConfigByNetwork`: the pair of its two results. -/
def GetRollupConfigByNetwork (name : String) : RollupConfig × Option String :=
  match NetworksByName.lookup name with
  | none => (RollupConfig.zero, some ("invalid network " ++ name))
  | some network => (network, none)

/-- The function `GetRollupConfigByChainId`: the pair of its two results. -/
def GetRollupConfigByChainId (chainId : String) : RollupConfig × Option String :=
  match NetworksByChainId.lookup chainId with
  | none =>
    (RollupConfig.zero,
      some ("no match pre-setting network chainId " ++ chainId ++ ", use file config"))
  | some network => (network, none)

end ChainCfg

namespace P2P

/-- The text `part` occurs inside the text `msg`. -/
def Mentions (msg part : String) : Prop := List.IsInfix part.data msg.data

instance (msg part : String) : Decidable (Mentions msg part) := by
  unfold Mentions; infer_instance

theorem mentions_append_left {a b part : String} (h : Mentions a part) :
    Mentions (a ++ b) part := by
  obtain ⟨u, v, huv⟩ := h
  refine ⟨u, v ++ b.data, ?_⟩
  simp [String.data_append, ← huv]

theorem mentions_append_right (a part : String) : Mentions (a ++ part) part :=
  ⟨a.data, [], by simp [String.data_append]⟩

theorem errPeers_mentions_lo (lo hi : Nat) : Mentions (errPeers lo hi) (toString lo) :=
  mentions_append_left (mentions_append_left (mentions_append_right _ _))

theorem errPeers_mentions_hi (lo hi : Nat) : Mentions (errPeers lo hi) (toString hi) :=
  mentions_append_right _ _

theorem errMesh_mentions_name (name : String) (ceiling v : Int) :
    Mentions (errMesh name ceiling v) name :=
  mentions_append_left (mentions_append_left (mentions_append_left
    (mentions_append_left (mentions_append_right _ _))))

theorem errMesh_mentions_ceiling (name : String) (ceiling v : Int) :
    Mentions (errMesh name ceiling v) (toString ceiling) :=
  mentions_append_left (mentions_append_left (mentions_append_right _ _))

theorem errMesh_mentions_value (name : String) (ceiling v : Int) :
    Mentions (errMesh name ceiling v) (toString v) :=
  mentions_append_right _ _

theorem errMesh_ne_errPeers (name : String) (ceiling v : Int) (lo hi : Nat) :
    errMesh name ceiling v ≠ errPeers lo hi := by
  intro h
  have h2 := congrArg (fun t => t.data.head?) h
  simp [errMesh, errPeers, String.data_append] at h2

/-- The store, discovery and peers checks of `Check` all pass. -/
def PreMeshOk (c : Config) : Prop :=
  c.Store ≠ none ∧ (c.NoDiscovery = true ∨ c.DiscoveryDB ≠ none) ∧
    ¬(c.PeersLo = 0 ∨ c.PeersHi = 0 ∨ c.PeersLo > c.PeersHi)

/-- A mesh parameter is outside `1..maxMeshParam`, as tested by `Check`. -/
def MeshBad (v : Int) : Prop := v ≤ 0 ∨ v > maxMeshParam

instance (v : Int) : Decidable (MeshBad v) := by unfold MeshBad; infer_instance

instance (c : Config) : Decidable (PreMeshOk c) := by unfold PreMeshOk; infer_instance

/-- A disabled configuration in which every checked field is invalid. -/
def disabledBadConfig : Config :=
  { sampleConfig with
    DisableP2P := true, Store := none, DiscoveryDB := none, PeersLo := 0, PeersHi := 0,
    MeshD := 0, MeshDLo := -1, MeshDHi := 1001, MeshDLazy := 5000 }

/-- An enabled configuration whose mesh bounds are each in range but out of order. -/
def unorderedMeshConfig : Config :=
  { sampleConfig with MeshD := 1, MeshDLo := 5, MeshDHi := 3 }

/-- An enabled configuration whose mesh bounds are each in range and fully reversed:
the low watermark exceeds the target, which exceeds the high watermark. -/
def reversedMeshConfig : Config :=
  { sampleConfig with MeshD := 5, MeshDLo := 9, MeshDHi := 3 }

/-- An enabled configuration whose watermarks are both `2 ^ 63`. -/
def overflowConfig : Config :=
  { sampleConfig with PeersLo := 2 ^ 63, PeersHi := 2 ^ 63 }

theorem check_of_enabled (c : Config) (h : c.DisableP2P = false) :
    c.Check =
      if c.Store = none then some errNoStore
      else if c.NoDiscovery = false ∧ c.DiscoveryDB = none then some errNoDiscoveryDB
      else if c.PeersLo = 0 ∨ c.PeersHi = 0 ∨ c.PeersLo > c.PeersHi then
        some (errPeers c.PeersLo c.PeersHi)
      else if MeshBad c.MeshD then some (errMesh "D" maxMeshParam c.MeshD)
      else if MeshBad c.MeshDLo then some (errMesh "Dlo" maxMeshParam c.MeshDLo)
      else if MeshBad c.MeshDHi then some (errMesh "Dhi" maxMeshParam c.MeshDHi)
      else if MeshBad c.MeshDLazy then some (errMesh "Dlazy" maxMeshParam c.MeshDLazy)
      else none := by
  simp [Config.Check, h, MeshBad]

theorem check_of_preMeshOk (c : Config) (h : c.DisableP2P = false) (hp : PreMeshOk c) :
    c.Check =
      if MeshBad c.MeshD then some (errMesh "D" maxMeshParam c.MeshD)
      else if MeshBad c.MeshDLo then some (errMesh "Dlo" maxMeshParam c.MeshDLo)
      else if MeshBad c.MeshDHi then some (errMesh "Dhi" maxMeshParam c.MeshDHi)
      else if MeshBad c.MeshDLazy then some (errMesh "Dlazy" maxMeshParam c.MeshDLazy)
      else none := by
  obtain ⟨hs, hd, hw⟩ := hp
  rw [check_of_enabled c h, if_neg hs, if_neg (by
    rintro ⟨h1, h2⟩
    rcases hd with hd | hd
    · simp [h1] at hd
    · exact hd h2), if_neg hw]

theorem meshBad_iff (v : Int) : ¬MeshBad v ↔ 1 ≤ v ∧ v ≤ 1000 := by
  unfold MeshBad maxMeshParam; omega

/-- C1: a configuration with `DisableP2P = true` passes `Check`, whatever its other
fields hold. -/
theorem check_disabled_ok (c : Config) (h : c.DisableP2P = true) : c.Check = none := by
  simp [Config.Check, h]

theorem check_disabled_ok_witness :
    disabledBadConfig.DisableP2P = true ∧ disabledBadConfig.Store = none ∧
      disabledBadConfig.PeersLo = 0 ∧ disabledBadConfig.Check = none :=
  ⟨rfl, rfl, rfl, check_disabled_ok disabledBadConfig rfl⟩

theorem check_nil_iff_of_enabled (c : Config) (h : c.DisableP2P = false) :
    c.Check = none ↔
      c.Store ≠ none ∧ (c.NoDiscovery = true ∨ c.DiscoveryDB ≠ none) ∧
      (0 < c.PeersLo ∧ c.PeersLo ≤ c.PeersHi) ∧
      (1 ≤ c.MeshD ∧ c.MeshD ≤ 1000) ∧ (1 ≤ c.MeshDLo ∧ c.MeshDLo ≤ 1000) ∧
      (1 ≤ c.MeshDHi ∧ c.MeshDHi ≤ 1000) ∧ (1 ≤ c.MeshDLazy ∧ c.MeshDLazy ≤ 1000) := by
  rw [check_of_enabled c h]
  constructor
  · intro hc
    split_ifs at hc with h1 h2 h3 h4 h5 h6 h7
    refine ⟨h1, ?_, ?_, (meshBad_iff _).1 h4, (meshBad_iff _).1 h5, (meshBad_iff _).1 h6,
      (meshBad_iff _).1 h7⟩
    · by_cases hn : c.NoDiscovery = true
      · exact Or.inl hn
      · right
        intro hd
        exact h2 ⟨by simpa using hn, hd⟩
    · omega
  · rintro ⟨h1, h2, h3, h4, h5, h6, h7⟩
    have e2 : ¬(c.NoDiscovery = false ∧ c.DiscoveryDB = none) := by
      rintro ⟨a, b⟩
      rcases h2 with h2 | h2
      · simp [a] at h2
      · exact h2 b
    have e3 : ¬(c.PeersLo = 0 ∨ c.PeersHi = 0 ∨ c.PeersLo > c.PeersHi) := by omega
    rw [if_neg h1, if_neg e2, if_neg e3, if_neg ((meshBad_iff _).2 h4),
      if_neg ((meshBad_iff _).2 h5), if_neg ((meshBad_iff _).2 h6),
      if_neg ((meshBad_iff _).2 h7)]

/-- C2: with `DisableP2P = false`, `Check` returns nil exactly when the store is set,
discovery is off or the discovery DB is set, `0 < PeersLo ≤ PeersHi`, and each of the four
mesh parameters lies in `1..1000`; otherwise it returns an error. -/
theorem check_enabled_nil_iff (c : Config) (h : c.DisableP2P = false) :
    (c.Check = none ↔
      c.Store ≠ none ∧ (c.NoDiscovery = true ∨ c.DiscoveryDB ≠ none) ∧
      (0 < c.PeersLo ∧ c.PeersLo ≤ c.PeersHi) ∧
      (1 ≤ c.MeshD ∧ c.MeshD ≤ 1000) ∧ (1 ≤ c.MeshDLo ∧ c.MeshDLo ≤ 1000) ∧
      (1 ≤ c.MeshDHi ∧ c.MeshDHi ≤ 1000) ∧ (1 ≤ c.MeshDLazy ∧ c.MeshDLazy ≤ 1000)) ∧
    (c.Check = none ∨ ∃ msg, c.Check = some msg) := by
  refine ⟨check_nil_iff_of_enabled c h, ?_⟩
  cases hc : c.Check with
  | none => exact Or.inl rfl
  | some m => exact Or.inr ⟨m, rfl⟩

theorem check_enabled_nil_iff_witness :
    sampleConfig.DisableP2P = false ∧ sampleConfig.Check = none ∧
      (1 ≤ sampleConfig.MeshD ∧ sampleConfig.MeshD ≤ 1000) :=
  ⟨rfl, by decide, ((check_enabled_nil_iff sampleConfig rfl).1.1 (by decide)).2.2.2.1⟩

/-- C3: with P2P enabled, the store set and discovery satisfied, `Check` returns the peers
watermark error exactly when `PeersLo = 0`, `PeersHi = 0` or `PeersLo > PeersHi`; the message
is `peers lo/hi tides are invalid: <PeersLo>, <PeersHi>` and so carries both values in
decimal. -/
theorem check_peers_error_iff (c : Config) (h : c.DisableP2P = false) (hs : c.Store ≠ none)
    (hd : c.NoDiscovery = true ∨ c.DiscoveryDB ≠ none) :
    (c.Check = some (errPeers c.PeersLo c.PeersHi) ↔
      (c.PeersLo = 0 ∨ c.PeersHi = 0 ∨ c.PeersLo > c.PeersHi)) ∧
    errPeers c.PeersLo c.PeersHi =
      "peers lo/hi tides are invalid: " ++ toString c.PeersLo ++ ", " ++ toString c.PeersHi ∧
    Mentions (errPeers c.PeersLo c.PeersHi) (toString c.PeersLo) ∧
    Mentions (errPeers c.PeersLo c.PeersHi) (toString c.PeersHi) := by
  refine ⟨?_, rfl, errPeers_mentions_lo _ _, errPeers_mentions_hi _ _⟩
  have e2 : ¬(c.NoDiscovery = false ∧ c.DiscoveryDB = none) := by
    rintro ⟨a, b⟩
    rcases hd with hd | hd
    · simp [a] at hd
    · exact hd b
  rw [check_of_enabled c h, if_neg hs, if_neg e2]
  constructor
  · intro hc
    by_contra hw
    rw [if_neg hw] at hc
    split_ifs at hc <;> simp at hc <;> exact errMesh_ne_errPeers _ _ _ _ _ hc
  · intro hw
    rw [if_pos hw]

theorem check_peers_error_iff_witness :
    ({ sampleConfig with PeersLo := 31 } : Config).Check =
      some "peers lo/hi tides are invalid: 31, 30" :=
  ((check_peers_error_iff { sampleConfig with PeersLo := 31 } rfl (by decide)
    (by decide)).1.2 (by decide)).trans (by decide)

/-- C4, as stated, fails: `Check` accepts an enabled configuration with `MeshDLo = 5`,
`MeshD = 1`, `MeshDHi = 3`, whose mesh bounds are not ordered, and one with `MeshDLo = 9`,
`MeshD = 5`, `MeshDHi = 3`, where the low bound exceeds the target and the target exceeds
the high bound. -/
theorem check_accepts_unordered_mesh :
    (unorderedMeshConfig.DisableP2P = false ∧ unorderedMeshConfig.Check = none ∧
      ¬(0 < unorderedMeshConfig.MeshDLo ∧
        unorderedMeshConfig.MeshDLo ≤ unorderedMeshConfig.MeshD ∧
        unorderedMeshConfig.MeshD ≤ unorderedMeshConfig.MeshDHi ∧
        unorderedMeshConfig.MeshDHi ≤ 1000 ∧
        0 < unorderedMeshConfig.MeshDLazy ∧ unorderedMeshConfig.MeshDLazy ≤ 1000)) ∧
    (reversedMeshConfig.DisableP2P = false ∧ reversedMeshConfig.Check = none ∧
      reversedMeshConfig.MeshDLo > reversedMeshConfig.MeshD ∧
      reversedMeshConfig.MeshD > reversedMeshConfig.MeshDHi ∧
      reversedMeshConfig.MeshDLo > reversedMeshConfig.MeshDHi) := by
  decide

/-- C4, amended: an enabled configuration that `Check` accepts has each of `MeshDLo`,
`MeshD`, `MeshDHi` and `MeshDLazy` in `1..1000`, each bound on its own; and `Check` enforces
no order among them: putting any four values of `1..1000`, in whatever order, in place of
the mesh parameters of an accepted configuration gives a configuration that is accepted
too. -/
theorem check_accepted_mesh_in_range (c : Config) (h : c.DisableP2P = false)
    (hc : c.Check = none) :
    ((0 < c.MeshDLo ∧ c.MeshDLo ≤ 1000) ∧ (0 < c.MeshD ∧ c.MeshD ≤ 1000) ∧
      (0 < c.MeshDHi ∧ c.MeshDHi ≤ 1000) ∧ (0 < c.MeshDLazy ∧ c.MeshDLazy ≤ 1000)) ∧
    (∀ d lo hi lz : Int,
      (0 < lo ∧ lo ≤ 1000) → (0 < d ∧ d ≤ 1000) → (0 < hi ∧ hi ≤ 1000) →
      (0 < lz ∧ lz ≤ 1000) →
      ({ c with MeshD := d, MeshDLo := lo, MeshDHi := hi, MeshDLazy := lz } : Config).Check =
        none) := by
  obtain ⟨a1, a2, a3, a4, a5, a6, a7⟩ := (check_nil_iff_of_enabled c h).1 hc
  refine ⟨by omega, ?_⟩
  intro d lo hi lz hlo hd hhi hlz
  refine (check_nil_iff_of_enabled
    ({ c with MeshD := d, MeshDLo := lo, MeshDHi := hi, MeshDLazy := lz } : Config) h).2 ?_
  exact ⟨a1, a2, a3, by dsimp only; omega, by dsimp only; omega, by dsimp only; omega,
    by dsimp only; omega⟩

theorem check_accepted_mesh_in_range_witness :
    ((0 < unorderedMeshConfig.MeshDLo ∧ unorderedMeshConfig.MeshDLo ≤ 1000) ∧
      (0 < unorderedMeshConfig.MeshD ∧ unorderedMeshConfig.MeshD ≤ 1000) ∧
      (0 < unorderedMeshConfig.MeshDHi ∧ unorderedMeshConfig.MeshDHi ≤ 1000) ∧
      (0 < unorderedMeshConfig.MeshDLazy ∧ unorderedMeshConfig.MeshDLazy ≤ 1000)) ∧
    ({ unorderedMeshConfig with MeshD := 1000, MeshDLo := 7, MeshDHi := 1, MeshDLazy := 2 } :
      Config).Check = none :=
  ⟨(check_accepted_mesh_in_range unorderedMeshConfig rfl (by decide)).1,
    (check_accepted_mesh_in_range unorderedMeshConfig rfl (by decide)).2 1000 7 1 2
      (by decide) (by decide) (by decide) (by decide)⟩

/-- C5, as stated, fails in three ways. A disabled configuration with `MeshD = 0` is
accepted. An enabled configuration with no store and `MeshD = 0` is rejected with the
peerstore message, which does not name `D`. An enabled configuration with `MeshD = 0` and
`MeshDLo = 0` is rejected with the `D` message, which does not name `Dlo`. -/
theorem check_bad_mesh_not_always_named :
    (MeshBad disabledBadConfig.MeshD ∧ disabledBadConfig.Check = none) ∧
    (MeshBad ({ sampleConfig with Store := none, MeshD := 0 } : Config).MeshD ∧
      ({ sampleConfig with Store := none, MeshD := 0 } : Config).Check = some errNoStore ∧
      ¬Mentions errNoStore "D") ∧
    (MeshBad ({ sampleConfig with MeshD := 0, MeshDLo := 0 } : Config).MeshDLo ∧
      ({ sampleConfig with MeshD := 0, MeshDLo := 0 } : Config).Check =
        some "mesh D param must not be 0 or exceed 1000, but got 0" ∧
      ¬Mentions "mesh D param must not be 0 or exceed 1000, but got 0" "Dlo") := by
  decide

/-- C5, amended: with P2P enabled, a mesh parameter that is `≤ 0` or `> 1000` makes `Check`
return an error; when the store, discovery and peers checks pass and the mesh parameters
tested before it (in the order D, Dlo, Dhi, Dlazy) are in range, that error is the
`mesh <name> param ...` message naming this parameter. -/
theorem check_bad_mesh_rejected (c : Config) (h : c.DisableP2P = false) :
    (MeshBad c.MeshD →
      c.Check ≠ none ∧
      (PreMeshOk c →
        c.Check = some (errMesh "D" maxMeshParam c.MeshD) ∧
        Mentions (errMesh "D" maxMeshParam c.MeshD) "D")) ∧
    (MeshBad c.MeshDLo →
      c.Check ≠ none ∧
      (PreMeshOk c → ¬MeshBad c.MeshD →
        c.Check = some (errMesh "Dlo" maxMeshParam c.MeshDLo) ∧
        Mentions (errMesh "Dlo" maxMeshParam c.MeshDLo) "Dlo")) ∧
    (MeshBad c.MeshDHi →
      c.Check ≠ none ∧
      (PreMeshOk c → ¬MeshBad c.MeshD → ¬MeshBad c.MeshDLo →
        c.Check = some (errMesh "Dhi" maxMeshParam c.MeshDHi) ∧
        Mentions (errMesh "Dhi" maxMeshParam c.MeshDHi) "Dhi")) ∧
    (MeshBad c.MeshDLazy →
      c.Check ≠ none ∧
      (PreMeshOk c → ¬MeshBad c.MeshD → ¬MeshBad c.MeshDLo → ¬MeshBad c.MeshDHi →
        c.Check = some (errMesh "Dlazy" maxMeshParam c.MeshDLazy) ∧
        Mentions (errMesh "Dlazy" maxMeshParam c.MeshDLazy) "Dlazy")) := by
  refine ⟨fun hb => ⟨?_, fun hp => ⟨?_, errMesh_mentions_name _ _ _⟩⟩,
    fun hb => ⟨?_, fun hp n1 => ⟨?_, errMesh_mentions_name _ _ _⟩⟩,
    fun hb => ⟨?_, fun hp n1 n2 => ⟨?_, errMesh_mentions_name _ _ _⟩⟩,
    fun hb => ⟨?_, fun hp n1 n2 n3 => ⟨?_, errMesh_mentions_name _ _ _⟩⟩⟩
  · rw [check_of_enabled c h]; split_ifs <;> simp
  · rw [check_of_preMeshOk c h hp, if_pos hb]
  · rw [check_of_enabled c h]; split_ifs <;> simp
  · rw [check_of_preMeshOk c h hp, if_neg n1, if_pos hb]
  · rw [check_of_enabled c h]; split_ifs <;> simp
  · rw [check_of_preMeshOk c h hp, if_neg n1, if_neg n2, if_pos hb]
  · rw [check_of_enabled c h]; split_ifs <;> simp
  · rw [check_of_preMeshOk c h hp, if_neg n1, if_neg n2, if_neg n3, if_pos hb]

theorem check_bad_mesh_rejected_witness :
    ({ sampleConfig with MeshDHi := 1001 } : Config).Check =
      some "mesh Dhi param must not be 0 or exceed 1000, but got 1001" :=
  ((((check_bad_mesh_rejected { sampleConfig with MeshDHi := 1001 } rfl).2.2.1
    (by decide)).2 (by decide) (by decide) (by decide)).1).trans (by decide)

/-- C6, as stated, fails: for none of `PeersGrace`, `BanningEnabled`, `BanningThreshold`,
`BanningDuration`, `FloodPublish`, `UserAgent`, `TimeoutNegotiation`, `TimeoutAccept` and
`TimeoutDial` is there an enabled configuration accepted by `Check` that a new value of that
field turns into a rejected one. -/
theorem check_ignores_untested_fields :
    (¬∃ (c : Config) (v : Duration), c.DisableP2P = false ∧ c.Check = none ∧
      ({ c with PeersGrace := v } : Config).Check ≠ none) ∧
    (¬∃ (c : Config) (v : Bool), c.DisableP2P = false ∧ c.Check = none ∧
      ({ c with BanningEnabled := v } : Config).Check ≠ none) ∧
    (¬∃ (c : Config) (v : Float), c.DisableP2P = false ∧ c.Check = none ∧
      ({ c with BanningThreshold := v } : Config).Check ≠ none) ∧
    (¬∃ (c : Config) (v : Duration), c.DisableP2P = false ∧ c.Check = none ∧
      ({ c with BanningDuration := v } : Config).Check ≠ none) ∧
    (¬∃ (c : Config) (v : Bool), c.DisableP2P = false ∧ c.Check = none ∧
      ({ c with FloodPublish := v } : Config).Check ≠ none) ∧
    (¬∃ (c : Config) (v : String), c.DisableP2P = false ∧ c.Check = none ∧
      ({ c with UserAgent := v } : Config).Check ≠ none) ∧
    (¬∃ (c : Config) (v : Duration), c.DisableP2P = false ∧ c.Check = none ∧
      ({ c with TimeoutNegotiation := v } : Config).Check ≠ none) ∧
    (¬∃ (c : Config) (v : Duration), c.DisableP2P = false ∧ c.Check = none ∧
      ({ c with TimeoutAccept := v } : Config).Check ≠ none) ∧
    (¬∃ (c : Config) (v : Duration), c.DisableP2P = false ∧ c.Check = none ∧
      ({ c with TimeoutDial := v } : Config).Check ≠ none) := by
  refine ⟨?_, ?_, ?_, ?_, ?_, ?_, ?_, ?_, ?_⟩ <;>
    (rintro ⟨c, v, _, hc, hn⟩; exact hn hc)

/-- C6, amended: among the operator-tunable fields `Check` validates `PeersLo`, `PeersHi`,
`MeshD`, `MeshDLo`, `MeshDHi` and `MeshDLazy`: setting any of them to 0 in an enabled
configuration, accepted or not, makes `Check` reject it. The result of `Check` does not depend on
`PeersGrace`, `BanningEnabled`, `BanningThreshold`, `BanningDuration`, `FloodPublish`,
`UserAgent`, `TimeoutNegotiation`, `TimeoutAccept` or `TimeoutDial`. -/
theorem check_validated_fields (c : Config) (h : c.DisableP2P = false) :
    (({ c with PeersLo := 0 } : Config).Check ≠ none ∧
      ({ c with PeersHi := 0 } : Config).Check ≠ none ∧
      ({ c with MeshD := 0 } : Config).Check ≠ none ∧
      ({ c with MeshDLo := 0 } : Config).Check ≠ none ∧
      ({ c with MeshDHi := 0 } : Config).Check ≠ none ∧
      ({ c with MeshDLazy := 0 } : Config).Check ≠ none) ∧
    ((∀ v : Duration, ({ c with PeersGrace := v } : Config).Check = c.Check) ∧
      (∀ v : Bool, ({ c with BanningEnabled := v } : Config).Check = c.Check) ∧
      (∀ v : Float, ({ c with BanningThreshold := v } : Config).Check = c.Check) ∧
      (∀ v : Duration, ({ c with BanningDuration := v } : Config).Check = c.Check) ∧
      (∀ v : Bool, ({ c with FloodPublish := v } : Config).Check = c.Check) ∧
      (∀ v : String, ({ c with UserAgent := v } : Config).Check = c.Check) ∧
      (∀ v : Duration, ({ c with TimeoutNegotiation := v } : Config).Check = c.Check) ∧
      (∀ v : Duration, ({ c with TimeoutAccept := v } : Config).Check = c.Check) ∧
      (∀ v : Duration, ({ c with TimeoutDial := v } : Config).Check = c.Check)) := by
  refine ⟨⟨?_, ?_, ?_, ?_, ?_, ?_⟩, ⟨?_, ?_, ?_, ?_, ?_, ?_, ?_, ?_, ?_⟩⟩
  · intro hc0
    have t := (check_nil_iff_of_enabled ({ c with PeersLo := 0 } : Config) h).1 hc0
    dsimp only at t
    omega
  · intro hc0
    have t := (check_nil_iff_of_enabled ({ c with PeersHi := 0 } : Config) h).1 hc0
    dsimp only at t
    omega
  · intro hc0
    have t := (check_nil_iff_of_enabled ({ c with MeshD := 0 } : Config) h).1 hc0
    dsimp only at t
    omega
  · intro hc0
    have t := (check_nil_iff_of_enabled ({ c with MeshDLo := 0 } : Config) h).1 hc0
    dsimp only at t
    omega
  · intro hc0
    have t := (check_nil_iff_of_enabled ({ c with MeshDHi := 0 } : Config) h).1 hc0
    dsimp only at t
    omega
  · intro hc0
    have t := (check_nil_iff_of_enabled ({ c with MeshDLazy := 0 } : Config) h).1 hc0
    dsimp only at t
    omega
  all_goals intro v; rfl

theorem check_validated_fields_witness :
    sampleConfig.Check = none ∧
      ({ sampleConfig with PeersHi := 0 } : Config).Check ≠ none ∧
      ({ sampleConfig with UserAgent := "" } : Config).Check = sampleConfig.Check :=
  ⟨by decide, (check_validated_fields sampleConfig rfl).1.2.1,
    (check_validated_fields sampleConfig rfl).2.2.2.2.2.2.1 ""⟩

/-- C8: with P2P enabled, a rejected configuration gets the error of the first violated
check in the order store, discovery DB, peers, `MeshD`, `MeshDLo`, `MeshDHi`, `MeshDLazy`,
whatever later fields hold; some check is violated whenever `Check` rejects; and the mesh
messages carry the parameter name, the ceiling 1000 and the offending value, the peers
message both watermarks. -/
theorem check_first_violation (c : Config) (h : c.DisableP2P = false) :
    (c.Store = none → c.Check = some errNoStore) ∧
    (c.Store ≠ none → (c.NoDiscovery = false ∧ c.DiscoveryDB = none) →
      c.Check = some errNoDiscoveryDB) ∧
    (c.Store ≠ none → (c.NoDiscovery = true ∨ c.DiscoveryDB ≠ none) →
      (c.PeersLo = 0 ∨ c.PeersHi = 0 ∨ c.PeersLo > c.PeersHi) →
      c.Check = some (errPeers c.PeersLo c.PeersHi)) ∧
    (PreMeshOk c → MeshBad c.MeshD → c.Check = some (errMesh "D" 1000 c.MeshD)) ∧
    (PreMeshOk c → ¬MeshBad c.MeshD → MeshBad c.MeshDLo →
      c.Check = some (errMesh "Dlo" 1000 c.MeshDLo)) ∧
    (PreMeshOk c → ¬MeshBad c.MeshD → ¬MeshBad c.MeshDLo → MeshBad c.MeshDHi →
      c.Check = some (errMesh "Dhi" 1000 c.MeshDHi)) ∧
    (PreMeshOk c → ¬MeshBad c.MeshD → ¬MeshBad c.MeshDLo → ¬MeshBad c.MeshDHi →
      MeshBad c.MeshDLazy → c.Check = some (errMesh "Dlazy" 1000 c.MeshDLazy)) ∧
    (c.Check ≠ none →
      c.Store = none ∨ (c.NoDiscovery = false ∧ c.DiscoveryDB = none) ∨
      (c.PeersLo = 0 ∨ c.PeersHi = 0 ∨ c.PeersLo > c.PeersHi) ∨
      MeshBad c.MeshD ∨ MeshBad c.MeshDLo ∨ MeshBad c.MeshDHi ∨ MeshBad c.MeshDLazy) ∧
    (errNoStore = "p2p requires a persistent or in-memory peerstore, but found none" ∧
      errNoDiscoveryDB =
        "discovery requires a persistent or in-memory discv5 db, but found none" ∧
      Mentions (errPeers c.PeersLo c.PeersHi) (toString c.PeersLo) ∧
      Mentions (errPeers c.PeersLo c.PeersHi) (toString c.PeersHi) ∧
      ∀ (name : String) (v : Int),
        errMesh name 1000 v =
          "mesh " ++ name ++ " param must not be 0 or exceed 1000, but got " ++ toString v ∧
        Mentions (errMesh name 1000 v) name ∧ Mentions (errMesh name 1000 v) "1000" ∧
        Mentions (errMesh name 1000 v) (toString v)) := by
  refine ⟨?_, ?_, ?_, ?_, ?_, ?_, ?_, ?_, rfl, rfl, errPeers_mentions_lo _ _,
    errPeers_mentions_hi _ _, fun name v => ⟨?_, errMesh_mentions_name _ _ _,
      errMesh_mentions_ceiling _ _ _, errMesh_mentions_value _ _ _⟩⟩
  · intro h1
    rw [check_of_enabled c h, if_pos h1]
  · intro h1 h2
    rw [check_of_enabled c h, if_neg h1, if_pos h2]
  · intro h1 h2 h3
    have e2 : ¬(c.NoDiscovery = false ∧ c.DiscoveryDB = none) := by
      rintro ⟨a, b⟩
      rcases h2 with h2 | h2
      · simp [a] at h2
      · exact h2 b
    rw [check_of_enabled c h, if_neg h1, if_neg e2, if_pos h3]
  · intro hp b1
    rw [check_of_preMeshOk c h hp, if_pos b1]; rfl
  · intro hp n1 b2
    rw [check_of_preMeshOk c h hp, if_neg n1, if_pos b2]; rfl
  · intro hp n1 n2 b3
    rw [check_of_preMeshOk c h hp, if_neg n1, if_neg n2, if_pos b3]; rfl
  · intro hp n1 n2 n3 b4
    rw [check_of_preMeshOk c h hp, if_neg n1, if_neg n2, if_neg n3, if_pos b4]; rfl
  · intro hne
    rw [check_of_enabled c h] at hne
    by_contra hall
    simp only [not_or] at hall
    obtain ⟨a1, a2, a3, a4, a5, a6, a7⟩ := hall
    rw [if_neg a1, if_neg a2, if_neg (by simpa only [not_or] using a3), if_neg a4, if_neg a5,
      if_neg a6, if_neg a7] at hne
    exact hne rfl
  · simp [errMesh, String.append_assoc]
    rfl

theorem check_first_violation_witness :
    ({ sampleConfig with Store := none, DiscoveryDB := none, PeersLo := 0, MeshD := 0 } :
        Config).Check =
      some "p2p requires a persistent or in-memory peerstore, but found none" ∧
    ({ sampleConfig with MeshDLo := -3, MeshDLazy := 0 } : Config).Check =
      some "mesh Dlo param must not be 0 or exceed 1000, but got -3" :=
  ⟨(check_first_violation
      { sampleConfig with Store := none, DiscoveryDB := none, PeersLo := 0, MeshD := 0 }
      rfl).1 rfl,
    ((check_first_violation { sampleConfig with MeshDLo := -3, MeshDLazy := 0 } rfl).2.2.2.2.1
      (by decide) (by decide) (by decide)).trans (by decide)⟩

/-- C10 fails on the code: `Check` accepts the enabled configuration with
`PeersLo = PeersHi = 2 ^ 63`, and `DefaultConnManager` then passes the low and high
watermarks `int(PeersLo) = int(PeersHi) = -2 ^ 63`, which are not positive. -/
theorem defaultConnManager_negative_watermarks :
    overflowConfig.DisableP2P = false ∧ overflowConfig.Check = none ∧
      overflowConfig.PeersLo < 2 ^ wordBits ∧ overflowConfig.PeersHi < 2 ^ wordBits ∧
      (DefaultConnManager overflowConfig).low = -9223372036854775808 ∧
      (DefaultConnManager overflowConfig).high = -9223372036854775808 ∧
      ¬(0 < (DefaultConnManager overflowConfig).low ∧
        (DefaultConnManager overflowConfig).low ≤ (DefaultConnManager overflowConfig).high) := by
  decide

theorem intOfUint_of_lt (x : Nat) (hx : x < 2 ^ 63) : intOfUint wordBits x = (x : Int) := by
  have e : x % 2 ^ 64 = x := Nat.mod_eq_of_lt (by omega)
  simp only [intOfUint, wordBits, e]
  rw [if_pos (by simpa using hx)]

/-- Below `2 ^ 63` the conversion keeps the watermarks of an accepted configuration
positive and ordered. -/
theorem defaultConnManager_watermarks_of_lt (c : Config) (h : c.DisableP2P = false)
    (hc : c.Check = none) (hb : c.PeersHi < 2 ^ 63) :
    0 < (DefaultConnManager c).low ∧ (DefaultConnManager c).low ≤ (DefaultConnManager c).high := by
  obtain ⟨-, -, ⟨h3, h4⟩, -⟩ := (check_nil_iff_of_enabled c h).1 hc
  simp only [DefaultConnManager]
  rw [intOfUint_of_lt _ (by omega), intOfUint_of_lt _ hb]
  omega

end P2P

namespace ChainCfg

theorem lookup_chainId (s : String) :
    NetworksByChainId.lookup s =
      if s = "204" then some OPBNBMainnet
      else if s = "5611" then some OPBNBTestnet
      else if s = "1322" then some OPBNBQANet
      else none := by
  by_cases h1 : s = "204"
  · subst h1; rfl
  · by_cases h2 : s = "5611"
    · subst h2; rfl
    · by_cases h3 : s = "1322"
      · subst h3; rfl
      · have e1 : (s == "204") = false := by simpa using h1
        have e2 : (s == "5611") = false := by simpa using h2
        have e3 : (s == "1322") = false := by simpa using h3
        simp [NetworksByChainId, List.lookup, e1, e2, e3, h1, h2, h3]

/-- C9: `GetRollupConfigByChainId s` succeeds exactly for `s` among `"204"`, `"5611"`,
`"1322"`. On success it returns the configuration whose `L2ChainID` in decimal is `s`, the
same one `GetRollupConfigByNetwork` returns for `opBNBMainnet`, `opBNBTestnet`, `opBNBQANet`
respectively. For any other `s` it returns the zero configuration and an error. -/
theorem getRollupConfigByChainId_spec (s : String) :
    ((GetRollupConfigByChainId s).2 = none ↔ (s = "204" ∨ s = "5611" ∨ s = "1322")) ∧
    ((s = "204" ∧ GetRollupConfigByChainId s = (OPBNBMainnet, none) ∧
        (GetRollupConfigByChainId s).1.L2ChainID.map toString = some s ∧
        GetRollupConfigByNetwork "opBNBMainnet" = ((GetRollupConfigByChainId s).1, none)) ∨
      (s = "5611" ∧ GetRollupConfigByChainId s = (OPBNBTestnet, none) ∧
        (GetRollupConfigByChainId s).1.L2ChainID.map toString = some s ∧
        GetRollupConfigByNetwork "opBNBTestnet" = ((GetRollupConfigByChainId s).1, none)) ∨
      (s = "1322" ∧ GetRollupConfigByChainId s = (OPBNBQANet, none) ∧
        (GetRollupConfigByChainId s).1.L2ChainID.map toString = some s ∧
        GetRollupConfigByNetwork "opBNBQANet" = ((GetRollupConfigByChainId s).1, none)) ∨
      (¬(s = "204" ∨ s = "5611" ∨ s = "1322") ∧
        (GetRollupConfigByChainId s).1 = RollupConfig.zero ∧
        (GetRollupConfigByChainId s).2 =
          some ("no match pre-setting network chainId " ++ s ++ ", use file config"))) := by
  by_cases h1 : s = "204"
  · subst h1
    exact ⟨by decide, Or.inl (by decide)⟩
  · by_cases h2 : s = "5611"
    · subst h2
      exact ⟨by decide, Or.inr (Or.inl (by decide))⟩
    · by_cases h3 : s = "1322"
      · subst h3
        exact ⟨by decide, Or.inr (Or.inr (Or.inl (by decide)))⟩
      · have e : GetRollupConfigByChainId s =
            (RollupConfig.zero,
              some ("no match pre-setting network chainId " ++ s ++ ", use file config")) := by
          simp only [GetRollupConfigByChainId, lookup_chainId, if_neg h1, if_neg h2, if_neg h3]
        refine ⟨?_, Or.inr (Or.inr (Or.inr ⟨by simp [h1, h2, h3], ?_, ?_⟩))⟩
        · simp [e, h1, h2, h3]
        · rw [e]
        · rw [e]

end ChainCfg
